import Mathlib

/-!
Verification development for the SceneManager core of the CS-330 final
project (Source/SceneManager.cpp).  The C++ class is shallowly embedded:

* float literals of the source are modelled as rationals (exact values);
* the material registry (std::vector of OBJECT_MATERIAL) is a Lean list;
* the texture registry (16-slot array plus m_loadedTextures counter) is a
  list of entries plus the counter, with the declared capacity recorded
  separately as textureSlotCapacity;
* the OpenGL library is modelled by an explicit GLState (texture-name
  allocator, set of allocated / released names, binding point, diagnostic
  log);
* the shader manager pointer is modelled by a Bool pShaderNull; a uniform
  write through a null pointer is a crash, so the uniform-writing member
  functions return Except Unit (List UniformWrite): .error () models the
  null dereference, .ok ws the list of uniform writes performed;
* SetTransformations passes its matrix to the shader; the write record
  keeps the constructor arguments, and the arguments-to-matrix function
  (glm arithmetic over the reals) is defined in the SetTransformations
  section below.
-/

namespace SceneMgr

/-- Model of glm::vec2 components as exact rationals. -/
abbrev Vec2 := ℚ × ℚ

/-- Model of glm::vec3 components as exact rationals. -/
abbrev Vec3 := ℚ × ℚ × ℚ

/-- Model of glm::vec4 components as exact rationals. -/
abbrev Vec4 := ℚ × ℚ × ℚ × ℚ

/-- The OBJECT_MATERIAL struct: five Blinn/Phong coefficients and a tag. -/
structure OBJECT_MATERIAL where
  ambientColor : Vec3
  ambientStrength : ℚ
  diffuseColor : Vec3
  specularColor : Vec3
  shininess : ℚ
  tag : String
deriving Repr, DecidableEq, Inhabited

/-- One entry of the m_textureIDs array: a tag and a GPU texture name
(the ID field, an int in the source, -1 when unused). -/
structure TextureEntry where
  tag : String
  ID : Int
deriving Repr, DecidableEq, Inhabited

/-- One shader uniform write, as performed through the ShaderManager
setter functions.  The mat4 write of SetTransformations records the
arguments the matrix was built from; the matrix itself is the function
setTransformationsMatrix defined below. -/
inductive UniformWrite where
  | mat4 (name : String) (scaleXYZ : Vec3) (rx ry rz : ℚ) (positionXYZ : Vec3)
  | int (name : String) (value : Int)
  | vec4 (name : String) (value : Vec4)
  | vec3 (name : String) (value : Vec3)
  | vec2 (name : String) (value : Vec2)
  | float (name : String) (value : ℚ)
  | sampler2D (name : String) (value : Int)
deriving Repr, DecidableEq

/-- The while loop of SceneManager::FindMaterial: walk the list until the
tag matches; on a hit copy the five coefficient fields (not the tag) into
the out parameter; on a miss leave the out parameter as it was. -/
def findMaterialLoop (mats : List OBJECT_MATERIAL) (tag : String)
    (material : OBJECT_MATERIAL) : OBJECT_MATERIAL :=
  match mats with
  | [] => material
  | m :: rest =>
    if m.tag = tag then
      { material with
        ambientColor := m.ambientColor
        ambientStrength := m.ambientStrength
        diffuseColor := m.diffuseColor
        specularColor := m.specularColor
        shininess := m.shininess }
    else findMaterialLoop rest tag material

/-- SceneManager::FindMaterial.  Returns the flag the function returns
together with the out parameter's contents after the call.  Faithful to
the source: the early return gives false on an empty registry, but the
final statement is return(true) - the bFound flag computed by the loop is
ignored, so any search of a non-empty registry reports found. -/
def findMaterial (mats : List OBJECT_MATERIAL) (tag : String)
    (material : OBJECT_MATERIAL) : Bool × OBJECT_MATERIAL :=
  if mats.length = 0 then
    (false, material)
  else
    (true, findMaterialLoop mats tag material)

/-- The while loop of SceneManager::FindTextureID: first matching entry's
ID, or -1 when the tag is absent. -/
def findTextureID (entries : List TextureEntry) (tag : String) : Int :=
  match entries with
  | [] => -1
  | e :: rest => if e.tag = tag then e.ID else findTextureID rest tag

/-- The while loop of SceneManager::FindTextureSlot with its running
index counter. -/
def findTextureSlotGo (entries : List TextureEntry) (tag : String)
    (index : Nat) : Int :=
  match entries with
  | [] => -1
  | e :: rest =>
    if e.tag = tag then Int.ofNat index else findTextureSlotGo rest tag (index + 1)

/-- SceneManager::FindTextureSlot: index of the first matching entry, or
-1 when the tag is absent. -/
def findTextureSlot (entries : List TextureEntry) (tag : String) : Int :=
  findTextureSlotGo entries tag 0

/-- SceneManager::SetTransformations.  The matrix is computed
unconditionally; the write to the model uniform is guarded by the
NULL-check on m_pShaderManager. -/
def setTransformations (pShaderNull : Bool) (scaleXYZ : Vec3)
    (XrotationDegrees YrotationDegrees ZrotationDegrees : ℚ)
    (positionXYZ : Vec3) : Except Unit (List UniformWrite) :=
  if pShaderNull then .ok []
  else .ok [.mat4 "model" scaleXYZ XrotationDegrees YrotationDegrees
              ZrotationDegrees positionXYZ]

/-- SceneManager::SetShaderColor: guarded write of bUseTexture = false
and objectColor. -/
def setShaderColor (pShaderNull : Bool)
    (redColorValue greenColorValue blueColorValue alphaValue : ℚ) :
    Except Unit (List UniformWrite) :=
  if pShaderNull then .ok []
  else .ok [.int "bUseTexture" 0,
            .vec4 "objectColor" (redColorValue, greenColorValue, blueColorValue, alphaValue)]

/-- SceneManager::SetShaderTexture: guarded write of bUseTexture = true
and the slot found for the tag (-1 when absent, written as-is). -/
def setShaderTexture (pShaderNull : Bool) (entries : List TextureEntry)
    (textureTag : String) : Except Unit (List UniformWrite) :=
  if pShaderNull then .ok []
  else .ok [.int "bUseTexture" 1,
            .sampler2D "objectTexture" (findTextureSlot entries textureTag)]

/-- SceneManager::SetTextureUVScale: guarded write of UVscale. -/
def setTextureUVScale (pShaderNull : Bool) (u v : ℚ) :
    Except Unit (List UniformWrite) :=
  if pShaderNull then .ok []
  else .ok [.vec2 "UVscale" (u, v)]

/-- The five uniform writes of SceneManager::SetShaderMaterial's success
branch, taken from the given material record. -/
def materialWrites (material : OBJECT_MATERIAL) : List UniformWrite :=
  [.vec3 "material.ambientColor" material.ambientColor,
   .float "material.ambientStrength" material.ambientStrength,
   .vec3 "material.diffuseColor" material.diffuseColor,
   .vec3 "material.specularColor" material.specularColor,
   .float "material.shininess" material.shininess]

/-- SceneManager::SetShaderMaterial.  The parameter material is the
content of the function's uninitialized local OBJECT_MATERIAL variable
(indeterminate in C++, hence universally quantified in the theorems).
Faithful to the source: the five writes are NOT guarded by a NULL-check
on m_pShaderManager, so when FindMaterial reports found and the pointer
is null the first setVec3Value call dereferences null (.error ()). -/
def setShaderMaterial (pShaderNull : Bool) (mats : List OBJECT_MATERIAL)
    (materialTag : String) (material : OBJECT_MATERIAL) :
    Except Unit (List UniformWrite) :=
  if mats.length > 0 then
    let result := findMaterial mats materialTag material
    if result.1 then
      if pShaderNull then .error ()
      else .ok (materialWrites result.2)
    else .ok []
  else .ok []

/-- SceneManager::SetupSceneLights: twelve unguarded uniform writes for
two light sources; with a null shader manager the first write
dereferences null. -/
def setupSceneLights (pShaderNull : Bool) : Except Unit (List UniformWrite) :=
  if pShaderNull then .error ()
  else .ok
    [.vec3 "lightSources[0].position" (0, 3, 20),
     .vec3 "lightSources[0].ambientColor" (1/10, 1/10, 1/10),
     .vec3 "lightSources[0].diffuseColor" (1/5, 1/5, 1/5),
     .vec3 "lightSources[0].specularColor" (0, 0, 0),
     .float "lightSources[0].focalStrength" 12,
     .float "lightSources[0].specularIntensity" (1/5),
     .vec3 "lightSources[1].position" (-3, 4, 6),
     .vec3 "lightSources[1].ambientColor" (1/100, 1/100, 1/100),
     .vec3 "lightSources[1].diffuseColor" (1/2, 1/2, 1/2),
     .vec3 "lightSources[1].specularColor" (1/5, 1/5, 1/5),
     .float "lightSources[1].focalStrength" 32,
     .float "lightSources[1].specularIntensity" (1/5)]

/-- The furmaterial record built by DefineObjectMaterials. -/
def furmaterial : OBJECT_MATERIAL :=
  { ambientColor := (1/10, 1/10, 1/10)
    ambientStrength := 3/10
    diffuseColor := (1/10, 1/10, 1/10)
    specularColor := (1/10, 1/10, 1/10)
    shininess := 1/5
    tag := "fur" }

/-- The wallmaterial record built by DefineObjectMaterials (built, but -
see defineObjectMaterials - never pushed). -/
def wallmaterial : OBJECT_MATERIAL :=
  { ambientColor := (1/100, 1/100, 1/100)
    ambientStrength := 1/10
    diffuseColor := (0, 0, 0)
    specularColor := (0, 0, 0)
    shininess := 1/10
    tag := "wall" }

/-- SceneManager::DefineObjectMaterials as an update of the
m_objectMaterials vector.  Faithful to the source: it pushes furmaterial,
builds wallmaterial, then pushes furmaterial a second time, so the
registry never receives an entry tagged "wall". -/
def defineObjectMaterials (mats : List OBJECT_MATERIAL) : List OBJECT_MATERIAL :=
  (mats ++ [furmaterial]) ++ [furmaterial]

/-- The diagnostics SceneManager::CreateGLTexture prints to std::cout. -/
inductive Diagnostic where
  | loadSuccess (filename : String) (width height colorChannels : Int)
  | channelsUnsupported (colorChannels : Int)
  | loadFailed (filename : String)
deriving Repr, DecidableEq

/-- The outcome of stbi_load: either a decoded image (raw pixels are not
modelled, only the dimensions and channel count the code branches on) or
a failure. -/
structure DecodedImage where
  width : Int
  height : Int
  colorChannels : Int
deriving Repr, DecidableEq

/-- Model of the OpenGL texture-object state the SceneManager touches:
the name allocator behind glGenTextures, the names allocated and the
names released (glDeleteTextures - which the source never calls), the
GL_TEXTURE_2D binding point (0 = nothing bound), and the diagnostic
log. -/
structure GLState where
  nextTextureName : Nat
  allocated : List Nat
  released : List Nat
  boundTexture2D : Nat
  log : List Diagnostic
deriving Repr, DecidableEq

/-- Fresh OpenGL state: names start at 1, nothing allocated or bound. -/
def initialGLState : GLState :=
  { nextTextureName := 1, allocated := [], released := [], boundTexture2D := 0, log := [] }

/-- glGenTextures(1, &id): hand out the next free texture name. -/
def glGenTexture (g : GLState) : Nat × GLState :=
  (g.nextTextureName,
   { g with
     nextTextureName := g.nextTextureName + 1
     allocated := g.allocated ++ [g.nextTextureName] })

/-- The texture registry owned by SceneManager: the live prefix of the
m_textureIDs array as a list, plus the m_loadedTextures counter.  The
declared array capacity is textureSlotCapacity below; the source never
compares m_loadedTextures against it. -/
structure TexRegistry where
  m_textureIDs : List TextureEntry
  m_loadedTextures : Nat
deriving Repr, DecidableEq

/-- Registry state after the SceneManager constructor. -/
def initialTexRegistry : TexRegistry :=
  { m_textureIDs := [], m_loadedTextures := 0 }

/-- Declared size of the m_textureIDs array (the constructor initializes
slots 0..15; the binding comment says there are up to 16 slots). -/
def textureSlotCapacity : Nat := 16

/-- SceneManager::CreateGLTexture, with the stbi_load outcome passed in
as data.  Faithful control flow: on decode failure print and return
false; otherwise print the success line, generate and bind a texture
name, and branch on the channel count - 3 or 4 channels upload, generate
mipmaps, free the pixels, unbind, append the registry entry and return
true; any other channel count prints the diagnostic and returns
immediately, skipping the free, the unbind and the append (so the
generated name stays allocated and bound).  No capacity check guards the
append. -/
def createGLTexture (decoded : Option DecodedImage) (filename : String)
    (tag : String) (reg : TexRegistry) (g : GLState) :
    Bool × TexRegistry × GLState :=
  match decoded with
  | none =>
    (false, reg, { g with log := g.log ++ [.loadFailed filename] })
  | some image =>
    let g1 := { g with
      log := g.log ++ [.loadSuccess filename image.width image.height image.colorChannels] }
    let gen := glGenTexture g1
    let textureID := gen.1
    let g2 := { gen.2 with boundTexture2D := textureID }
    if image.colorChannels = 3 ∨ image.colorChannels = 4 then
      let g3 := { g2 with boundTexture2D := 0 }
      let reg2 : TexRegistry :=
        { m_textureIDs := reg.m_textureIDs ++ [{ tag := tag, ID := Int.ofNat textureID }]
          m_loadedTextures := reg.m_loadedTextures + 1 }
      (true, reg2, g3)
    else
      (false, reg,
       { g2 with log := g2.log ++ [.channelsUnsupported image.colorChannels] })

/-- The loop body of SceneManager::DestroyGLTextures applied to each live
entry: glGenTextures(1, &m_textureIDs[i].ID) - a fresh name is generated
and stored into the entry; nothing is deleted. -/
def destroyGLTexturesGo (entries : List TextureEntry) (g : GLState) :
    List TextureEntry × GLState :=
  match entries with
  | [] => ([], g)
  | e :: rest =>
    let gen := glGenTexture g
    let r := destroyGLTexturesGo rest gen.2
    ({ e with ID := Int.ofNat gen.1 } :: r.1, r.2)

/-- SceneManager::DestroyGLTextures: runs the (buggy) per-slot
glGenTextures loop; m_loadedTextures is left unchanged. -/
def destroyGLTextures (reg : TexRegistry) (g : GLState) :
    TexRegistry × GLState :=
  let r := destroyGLTexturesGo reg.m_textureIDs g
  ({ reg with m_textureIDs := r.1 }, r.2)

/-- One call to CreateGLTexture as issued by LoadSceneTextures: a file
name, the decode outcome for that file, and the registry tag. -/
structure LoadRequest where
  filename : String
  decoded : Option DecodedImage
  tag : String
deriving Repr, DecidableEq

/-- A load request that decodes and has a supported channel count, so
CreateGLTexture accepts it. -/
def goodRequest (l : LoadRequest) : Bool :=
  match l.decoded with
  | none => false
  | some image => image.colorChannels == 3 || image.colorChannels == 4

/-- Run a sequence of CreateGLTexture calls left to right (the return
flag of each call is dropped, as LoadSceneTextures drops it). -/
def runLoads (reg : TexRegistry) (g : GLState) :
    List LoadRequest → TexRegistry × GLState
  | [] => (reg, g)
  | l :: rest =>
    let r := createGLTexture l.decoded l.filename l.tag reg g
    runLoads r.2.1 r.2.2 rest

/-- A load request whose image decodes as 256 x 256 RGB, so the load
succeeds. -/
def goodLoad : LoadRequest :=
  { filename := "t.jpg"
    decoded := some { width := 256, height := 256, colorChannels := 3 }
    tag := "t" }

/-- Registry and GL state after 16 successful loads from scratch. -/
def sixteenLoadsState : TexRegistry × GLState :=
  runLoads initialTexRegistry initialGLState (List.replicate 16 goodLoad)

/-- Registry and GL state after 17 successful loads from scratch. -/
def seventeenLoadsState : TexRegistry × GLState :=
  runLoads initialTexRegistry initialGLState (List.replicate 17 goodLoad)

/-- Two successful loads (an RGB fur image, then an RGBA pages image)
from scratch, as in the spec's concrete scenario 2. -/
def furPagesLoads : List LoadRequest :=
  [{ filename := "fur.jpg"
     decoded := some { width := 256, height := 256, colorChannels := 3 }
     tag := "fur" },
   { filename := "pages.jpg"
     decoded := some { width := 128, height := 128, colorChannels := 4 }
     tag := "pages" }]

/-- State after the two furPagesLoads. -/
def furPagesState : TexRegistry × GLState :=
  runLoads initialTexRegistry initialGLState furPagesLoads

/-- State after the two furPagesLoads followed by DestroyGLTextures. -/
def furPagesDestroyed : TexRegistry × GLState :=
  destroyGLTextures furPagesState.1 furPagesState.2

/-- Result of CreateGLTexture on an image that decodes with 2 channels. -/
def twoChannelResult : Bool × TexRegistry × GLState :=
  createGLTexture (some { width := 64, height := 64, colorChannels := 2 })
    "gray.jpg" "gray" initialTexRegistry initialGLState

/-- C1.  Claim: SetMaterial with an unregistered tag performs no uniform
writes - on an empty registry the resolve returns false without touching
the out parameter, and on a non-empty registry a miss leaves all five
material uniforms unchanged.  The empty half holds, but on the non-empty
registry produced by DefineObjectMaterials a search for the unregistered
tag "wall" reports found (FindMaterial ignores its bFound flag and
returns true whenever the registry is non-empty), so SetShaderMaterial
writes all five material uniforms from its uninitialized local record
(here the universally quantified material). -/
theorem setShaderMaterial_miss_behavior (material : OBJECT_MATERIAL) (tag : String) :
    setShaderMaterial false [] tag material = .ok [] ∧
    findMaterial [] tag material = (false, material) ∧
    findMaterial (defineObjectMaterials []) "wall" material = (true, material) ∧
    setShaderMaterial false (defineObjectMaterials []) "wall" material =
      .ok (materialWrites material) ∧
    materialWrites material ≠ [] := by
  refine ⟨rfl, rfl, ?_, ?_, by simp [materialWrites]⟩
  · simp [findMaterial, defineObjectMaterials, findMaterialLoop, furmaterial]
  · simp [setShaderMaterial, findMaterial, defineObjectMaterials, findMaterialLoop,
      furmaterial]

/-- C2 counterexample.  Claim (as stated): every uniform-writing
operation is a no-op and does not crash when the shader manager pointer
is null.  False: SetupSceneLights writes its light uniforms without any
NULL-check, and SetShaderMaterial on a non-empty registry reaches its
five unguarded writes; both dereference the null pointer. -/
theorem nullShader_noop_counterexample :
    setupSceneLights true = .error () ∧
    setShaderMaterial true (defineObjectMaterials []) "fur" default = .error () := by
  exact ⟨rfl, rfl⟩

/-- C2 amended.  SetTransformations, SetShaderColor, SetShaderTexture
and SetTextureUVScale are no-ops when the shader manager pointer is
null, for every argument; SetShaderMaterial is a no-op only when the
material registry is empty - on any non-empty registry it dereferences
the null pointer, as does SetupSceneLights. -/
theorem nullShader_noop_amended (scaleXYZ : Vec3) (rx ry rz : ℚ)
    (positionXYZ : Vec3) (r g b a u v : ℚ) (entries : List TextureEntry)
    (tag : String) (material m0 : OBJECT_MATERIAL)
    (mats : List OBJECT_MATERIAL) :
    setTransformations true scaleXYZ rx ry rz positionXYZ = .ok [] ∧
    setShaderColor true r g b a = .ok [] ∧
    setShaderTexture true entries tag = .ok [] ∧
    setTextureUVScale true u v = .ok [] ∧
    setShaderMaterial true [] tag material = .ok [] ∧
    setShaderMaterial true (m0 :: mats) tag material = .error () ∧
    setupSceneLights true = .error () := by
  refine ⟨rfl, rfl, rfl, rfl, rfl, ?_, rfl⟩
  simp [setShaderMaterial, findMaterial]

/-- C9.  Claim: after DefineObjectMaterials the registry holds two
entries both tagged "fur" and none tagged "wall" (true - the code builds
wallmaterial but pushes furmaterial a second time), and consequently a
later SetMaterial("wall") makes no uniform writes.  The consequence
fails on the code: FindMaterial reports found on any non-empty registry,
so SetShaderMaterial("wall") writes the five material uniforms from its
uninitialized local record. -/
theorem defineObjectMaterials_wall_missing (material : OBJECT_MATERIAL) :
    defineObjectMaterials [] = [furmaterial, furmaterial] ∧
    furmaterial.tag = "fur" ∧
    wallmaterial.tag = "wall" ∧
    (defineObjectMaterials []).all (fun m => m.tag == "fur") = true ∧
    (defineObjectMaterials []).all (fun m => m.tag != "wall") = true ∧
    setShaderMaterial false (defineObjectMaterials []) "wall" material =
      .ok (materialWrites material) ∧
    materialWrites material ≠ [] := by
  refine ⟨rfl, rfl, rfl, by decide, by decide, ?_, by simp [materialWrites]⟩
  simp [setShaderMaterial, findMaterial, defineObjectMaterials, findMaterialLoop,
    furmaterial]

/-- C3.  Claim: the registry never exceeds 16 entries and a 17th Load is
rejected.  False on the code: CreateGLTexture performs no capacity
check, so the 17th successful load also returns true and pushes
m_loadedTextures to 17 - its registry write uses slot index 16, which is
not a valid index of the 16-slot m_textureIDs array (out-of-bounds
write, undefined behavior in the C++). -/
theorem seventeenth_load_not_rejected :
    sixteenLoadsState.1.m_loadedTextures = textureSlotCapacity ∧
    (createGLTexture goodLoad.decoded goodLoad.filename goodLoad.tag
        sixteenLoadsState.1 sixteenLoadsState.2).1 = true ∧
    ¬ (sixteenLoadsState.1.m_loadedTextures < textureSlotCapacity) ∧
    seventeenLoadsState.1.m_loadedTextures = 17 ∧
    ¬ (seventeenLoadsState.1.m_loadedTextures ≤ textureSlotCapacity) := by
  decide

/-- C7.  Claim: after the texture teardown every handle allocated by a
successful load has been released and the registry is cleared.  False on
the code: DestroyGLTextures calls glGenTextures on each slot instead of
glDeleteTextures, so after two loads (names 1 and 2) the teardown
releases nothing, allocates two further names 3 and 4 into the entries,
and leaves m_loadedTextures at 2. -/
theorem destroy_releases_nothing :
    furPagesState.1.m_textureIDs =
      [{ tag := "fur", ID := 1 }, { tag := "pages", ID := 2 }] ∧
    furPagesDestroyed.2.released = [] ∧
    furPagesDestroyed.1.m_loadedTextures = 2 ∧
    furPagesDestroyed.1.m_textureIDs =
      [{ tag := "fur", ID := 3 }, { tag := "pages", ID := 4 }] ∧
    furPagesDestroyed.2.allocated = [1, 2, 3, 4] := by
  decide

/-- C8.  Claim: an image with an unsupported channel count is rejected
with a diagnostic, appends no registry entry, leaks no GPU handle and
leaves no texture bound.  On the code the early return in the channel
branch skips the unbind and the cleanup: the call returns false, emits
the diagnostic and appends nothing, but texture name 1 was generated
(allocated, never released) and is still bound on exit. -/
theorem unsupported_channels_leaks :
    twoChannelResult.1 = false ∧
    twoChannelResult.2.1 = initialTexRegistry ∧
    twoChannelResult.2.2.log =
      [.loadSuccess "gray.jpg" 64 64 2, .channelsUnsupported 2] ∧
    twoChannelResult.2.2.allocated = [1] ∧
    twoChannelResult.2.2.released = [] ∧
    twoChannelResult.2.2.boundTexture2D = 1 ∧
    twoChannelResult.2.2.boundTexture2D ≠ 0 := by
  decide

/-- Registry entries produced by a run of successful loads when the GL
name allocator starts at start: the j-th tag is paired with name
start + j (insertion order equals slot index). -/
def expectedEntries (start : Nat) : List String → List TextureEntry
  | [] => []
  | t :: rest => { tag := t, ID := Int.ofNat start } :: expectedEntries (start + 1) rest

/-- A successful CreateGLTexture call spelled out: returns true, appends
one entry carrying the freshly generated name, bumps the counter, and
leaves the GL state clean (nothing bound) with the name allocated. -/
theorem createGLTexture_ok (image : DecodedImage) (filename tag : String)
    (reg : TexRegistry) (g : GLState)
    (h : image.colorChannels = 3 ∨ image.colorChannels = 4) :
    createGLTexture (some image) filename tag reg g =
      (true,
       { m_textureIDs := reg.m_textureIDs ++ [{ tag := tag, ID := Int.ofNat g.nextTextureName }]
         m_loadedTextures := reg.m_loadedTextures + 1 },
       { nextTextureName := g.nextTextureName + 1
         allocated := g.allocated ++ [g.nextTextureName]
         released := g.released
         boundTexture2D := 0
         log := g.log ++ [.loadSuccess filename image.width image.height image.colorChannels] }) := by
  rcases h with h | h <;> simp [createGLTexture, glGenTexture, h]

/-- Witness for createGLTexture_ok at the concrete fur image. -/
theorem createGLTexture_ok_witness :
    ((256 : Int) = 3 ∨ (256 : Int) = 4 → False) ∧
    createGLTexture (some { width := 256, height := 256, colorChannels := 3 })
        "fur.jpg" "fur" initialTexRegistry initialGLState =
      (true,
       { m_textureIDs := [{ tag := "fur", ID := 1 }], m_loadedTextures := 1 },
       { nextTextureName := 2, allocated := [1], released := [], boundTexture2D := 0
         log := [.loadSuccess "fur.jpg" 256 256 3] }) := by
  exact ⟨by decide,
    createGLTexture_ok { width := 256, height := 256, colorChannels := 3 }
      "fur.jpg" "fur" initialTexRegistry initialGLState (Or.inl rfl)⟩

/-- Characterization of a run of successful loads: the final registry is
the starting one extended by one entry per load, tags in call order,
names counting up from the allocator's starting value. -/
theorem runLoads_entries (loads : List LoadRequest) :
    ∀ (reg : TexRegistry) (g : GLState), loads.all goodRequest = true →
    (runLoads reg g loads).1.m_textureIDs =
      reg.m_textureIDs ++ expectedEntries g.nextTextureName (loads.map LoadRequest.tag) := by
  induction loads with
  | nil => intro reg g _; simp [runLoads, expectedEntries]
  | cons l rest ih =>
    intro reg g hall
    rw [List.all_cons, Bool.and_eq_true] at hall
    obtain ⟨hl, hrest⟩ := hall
    cases hd : l.decoded with
    | none => rw [goodRequest, hd] at hl; cases hl
    | some image =>
      rw [goodRequest, hd] at hl
      have hch : image.colorChannels = 3 ∨ image.colorChannels = 4 := by
        rcases Bool.or_eq_true_iff.mp hl with h | h
        · exact Or.inl (eq_of_beq h)
        · exact Or.inr (eq_of_beq h)
      show (runLoads reg g (l :: rest)).1.m_textureIDs = _
      rw [runLoads, hd, createGLTexture_ok image l.filename l.tag reg g hch]
      rw [ih _ _ hrest]
      simp [expectedEntries, List.append_assoc]

/-- FindTextureSlot's loop over the entries of a successful run: with
pairwise distinct tags, the tag inserted at position i is found at index
counter + i. -/
theorem findTextureSlotGo_expected (tags : List String) :
    ∀ (start k i : Nat) (h : i < tags.length), tags.Nodup →
    findTextureSlotGo (expectedEntries start tags) (tags.get ⟨i, h⟩) k =
      Int.ofNat (k + i) := by
  induction tags with
  | nil => intro start k i h; simp at h
  | cons t ts ih =>
    intro start k i h hnd
    rw [List.nodup_cons] at hnd
    cases i with
    | zero => simp [expectedEntries, findTextureSlotGo]
    | succ j =>
      have hj : j < ts.length := Nat.lt_of_succ_lt_succ h
      have hne : t ≠ (t :: ts).get ⟨j + 1, h⟩ := by
        intro he
        exact hnd.1 (he ▸ List.get_mem ts j hj)
      rw [expectedEntries, findTextureSlotGo, if_neg hne]
      have := ih (start + 1) (k + 1) j hj hnd.2
      rw [show (t :: ts).get ⟨j + 1, h⟩ = ts.get ⟨j, hj⟩ from rfl]
      rw [this]
      congr 1
      omega

/-- FindTextureID's loop over the entries of a successful run: with
pairwise distinct tags, the tag inserted at position i resolves to the
name start + i generated by load i. -/
theorem findTextureID_expected (tags : List String) :
    ∀ (start i : Nat) (h : i < tags.length), tags.Nodup →
    findTextureID (expectedEntries start tags) (tags.get ⟨i, h⟩) =
      Int.ofNat (start + i) := by
  induction tags with
  | nil => intro start i h; simp at h
  | cons t ts ih =>
    intro start i h hnd
    rw [List.nodup_cons] at hnd
    cases i with
    | zero => simp [expectedEntries, findTextureID]
    | succ j =>
      have hj : j < ts.length := Nat.lt_of_succ_lt_succ h
      have hne : t ≠ (t :: ts).get ⟨j + 1, h⟩ := by
        intro he
        exact hnd.1 (he ▸ List.get_mem ts j hj)
      rw [expectedEntries, findTextureID, if_neg hne]
      have := ih (start + 1) j hj hnd.2
      rw [show (t :: ts).get ⟨j + 1, h⟩ = ts.get ⟨j, hj⟩ from rfl]
      rw [this]
      congr 1
      omega

/-- A tag never loaded makes FindTextureSlot's loop run off the end. -/
theorem findTextureSlotGo_miss (tags : List String) :
    ∀ (start k : Nat) (t : String), t ∉ tags →
    findTextureSlotGo (expectedEntries start tags) t k = -1 := by
  induction tags with
  | nil => intro start k t _; rfl
  | cons a ts ih =>
    intro start k t ht
    rw [List.mem_cons, not_or] at ht
    rw [expectedEntries, findTextureSlotGo, if_neg (fun he => ht.1 he.symm)]
    exact ih (start + 1) (k + 1) t ht.2

/-- A tag never loaded makes FindTextureID's loop run off the end. -/
theorem findTextureID_miss (tags : List String) :
    ∀ (start : Nat) (t : String), t ∉ tags →
    findTextureID (expectedEntries start tags) t = -1 := by
  induction tags with
  | nil => intro start t _; rfl
  | cons a ts ih =>
    intro start t ht
    rw [List.mem_cons, not_or] at ht
    rw [expectedEntries, findTextureID, if_neg (fun he => ht.1 he.symm)]
    exact ih (start + 1) t ht.2

/-- C5.  For every sequence of successful loads with pairwise distinct
tags (within the 16-slot capacity, where the C++ array write is in
bounds), the tag of load i resolves to slot i and to the GPU name
1 + i stored by load i (names count from 1 in the model's allocator);
a tag never loaded resolves to -1 under both searches. -/
theorem load_resolve_roundtrip (loads : List LoadRequest)
    (hgood : loads.all goodRequest = true)
    (hdistinct : (loads.map LoadRequest.tag).Nodup)
    (hcap : loads.length ≤ textureSlotCapacity) :
    (∀ i : Fin loads.length,
      findTextureSlot (runLoads initialTexRegistry initialGLState loads).1.m_textureIDs
          (loads.get i).tag = Int.ofNat i.val ∧
      findTextureID (runLoads initialTexRegistry initialGLState loads).1.m_textureIDs
          (loads.get i).tag = Int.ofNat (1 + i.val)) ∧
    (∀ t : String, t ∉ loads.map LoadRequest.tag →
      findTextureSlot (runLoads initialTexRegistry initialGLState loads).1.m_textureIDs t = -1 ∧
      findTextureID (runLoads initialTexRegistry initialGLState loads).1.m_textureIDs t = -1) := by
  have hE := runLoads_entries loads initialTexRegistry initialGLState hgood
  rw [show initialTexRegistry.m_textureIDs = [] from rfl,
      show initialGLState.nextTextureName = 1 from rfl, List.nil_append] at hE
  constructor
  · intro i
    have hi : i.val < (loads.map LoadRequest.tag).length := by
      rw [List.length_map]; exact i.isLt
    have hget : (loads.get i).tag = (loads.map LoadRequest.tag).get ⟨i.val, hi⟩ := by
      simp [List.getElem_map]
    constructor
    · rw [hE, findTextureSlot, hget,
        findTextureSlotGo_expected (loads.map LoadRequest.tag) 1 0 i.val hi hdistinct,
        Nat.zero_add]
    · rw [hE, hget, findTextureID_expected (loads.map LoadRequest.tag) 1 i.val hi hdistinct]
  · intro t ht
    exact ⟨by rw [hE, findTextureSlot, findTextureSlotGo_miss _ 1 0 t ht],
           by rw [hE, findTextureID_miss _ 1 t ht]⟩

/-- The two loads of the spec's concrete scenario 2, used to witness the
round-trip theorem. -/
def witnessLoads : List LoadRequest :=
  [{ filename := "fur.jpg"
     decoded := some { width := 256, height := 256, colorChannels := 3 }
     tag := "fur" },
   { filename := "pages.jpg"
     decoded := some { width := 128, height := 128, colorChannels := 4 }
     tag := "pages" }]

/-- Witness for load_resolve_roundtrip: fur and pages resolve to slots 0
and 1 with names 1 and 2, and the never-loaded tag glass resolves to -1. -/
theorem load_resolve_roundtrip_witness :
    witnessLoads.all goodRequest = true ∧
    (witnessLoads.map LoadRequest.tag).Nodup ∧
    witnessLoads.length ≤ textureSlotCapacity ∧
    (findTextureSlot (runLoads initialTexRegistry initialGLState witnessLoads).1.m_textureIDs
        (witnessLoads.get ⟨0, by decide⟩).tag = Int.ofNat 0 ∧
     findTextureID (runLoads initialTexRegistry initialGLState witnessLoads).1.m_textureIDs
        (witnessLoads.get ⟨0, by decide⟩).tag = Int.ofNat (1 + 0)) ∧
    (findTextureSlot (runLoads initialTexRegistry initialGLState witnessLoads).1.m_textureIDs
        "glass" = -1 ∧
     findTextureID (runLoads initialTexRegistry initialGLState witnessLoads).1.m_textureIDs
        "glass" = -1) := by
  refine ⟨by decide, by decide, by decide, ?_, ?_⟩
  · exact (load_resolve_roundtrip witnessLoads (by decide) (by decide) (by decide)).1
      ⟨0, by decide⟩
  · exact (load_resolve_roundtrip witnessLoads (by decide) (by decide) (by decide)).2
      "glass" (by decide)

/-- The eight procedural primitives of the external mesh library. -/
inductive Shape where
  | Plane | Box | Prism | Cylinder | TaperedCylinder | Cone | Sphere | Torus
deriving Repr, DecidableEq

/-- One call the render script issues against the SceneManager members
(the DrawShapeMesh calls of the mesh library included). -/
inductive SMCall where
  | setTransformations (scaleXYZ : Vec3) (rx ry rz : ℚ) (positionXYZ : Vec3)
  | setShaderTexture (textureTag : String)
  | setShaderMaterial (materialTag : String)
  | setTextureUVScale (u v : ℚ)
  | drawMesh (shape : Shape)
deriving Repr, DecidableEq

/-- SceneManager::RenderDolphin as the exact call sequence of the
source, literals transcribed as exact rationals. -/
def renderDolphin : List SMCall :=
  [.setTransformations (2, 5, 2) 0 45 90 (7, 1, 7),
   .setShaderTexture "fur", .setTextureUVScale 1 1, .setShaderMaterial "fur",
   .drawMesh .Cylinder,
   .setTransformations (2, 4, 2) 0 45 270 (7, 1, 7),
   .setShaderTexture "fur", .setTextureUVScale 1 1, .setShaderMaterial "fur",
   .drawMesh .TaperedCylinder,
   .setTransformations (2, 2, 2) 0 0 0 (3, 1, 11),
   .setShaderTexture "fur", .setTextureUVScale 1 1, .setShaderMaterial "fur",
   .drawMesh .Sphere,
   .setTransformations (1, 2, 1) 0 45 100 (2, 1/2, 12),
   .setShaderTexture "fur", .setTextureUVScale 1 1, .setShaderMaterial "fur",
   .drawMesh .Cone,
   .setTransformations (9/10, 9/10, 9/10) 0 0 0 (199/20, 21/20, 17/4),
   .setShaderTexture "fur", .setTextureUVScale 1 1, .setShaderMaterial "fur",
   .drawMesh .Sphere,
   .setTransformations (1, 1/4, 3/2) (-90) 0 45 (5, 7/2, 9),
   .setShaderTexture "fur", .setTextureUVScale 1 1, .setShaderMaterial "fur",
   .drawMesh .Prism,
   .setTransformations (1, 1/2, 2) 15 25 0 (6, 0, 23/2),
   .setShaderTexture "fur", .setTextureUVScale 1 1, .setShaderMaterial "fur",
   .drawMesh .Prism,
   .setTransformations (2, 1/2, 2) 10 (-45) 0 (54/5, 1, 4),
   .setShaderTexture "fur", .setShaderMaterial "fur", .setTextureUVScale 1 1,
   .drawMesh .Prism,
   .setTransformations (1/4, 9/20, 1/4) 0 0 0 (13/4, 8/5, 263/20),
   .setShaderTexture "black", .setShaderMaterial "fur", .setTextureUVScale 1 1,
   .drawMesh .Sphere,
   .setTransformations (1/4, 9/20, 1/4) 0 0 0 (5/4, 8/5, 11),
   .setShaderTexture "black", .setShaderMaterial "fur", .setTextureUVScale 1 1,
   .drawMesh .Sphere]

/-- SceneManager::RenderLaptop as the exact call sequence of the source. -/
def renderLaptop : List SMCall :=
  [.setTransformations (41/4, 1/5, 33/4) 5 0 0 (-1/2, 0, 4),
   .setShaderTexture "keyboard", .setTextureUVScale 1 1,
   .drawMesh .Box,
   .setTransformations (41/4, 1/5, 33/4) 90 0 0 (-1/2, 3, -1/2),
   .setShaderTexture "screen", .setTextureUVScale 1 1,
   .drawMesh .Box]

/-- SceneManager::RenderBook as the exact call sequence of the source. -/
def renderBook : List SMCall :=
  [.setTransformations (7, 3/2, 5) 0 (-20) 0 (-11/2, 0, 39/4),
   .setShaderTexture "book", .setTextureUVScale 1 1,
   .drawMesh .Box,
   .setTransformations (34/5, 13/10, 24/5) 0 (-20) 0 (-43/8, 0, 39/4),
   .setShaderTexture "pages", .setTextureUVScale 1 1,
   .drawMesh .Box]

/-- SceneManager::RenderHeadPhones as the exact call sequence of the
source. -/
def renderHeadPhones : List SMCall :=
  [.setTransformations (5/2, 5/2, 3/2) 90 0 0 (-43/8, 1, 39/4),
   .setShaderTexture "black", .setTextureUVScale 1 1,
   .drawMesh .Torus,
   .setTransformations (33/20, 3/4, 33/20) 0 0 0 (-15/4, 4/5, 23/2),
   .setShaderTexture "headphones", .setTextureUVScale 1 1,
   .drawMesh .TaperedCylinder,
   .setTransformations (33/20, 3/4, 33/20) 0 0 0 (-3, 4/5, 39/4),
   .setShaderTexture "headphones", .setTextureUVScale 1 1,
   .drawMesh .TaperedCylinder]

/-- SceneManager::RenderScene: the glass column, the back wall and the
floor followed by the four composers, as the exact call sequence of the
source. -/
def renderScene : List SMCall :=
  [.setTransformations (15, 1/2, 15) 0 0 0 (0, -2, 0),
   .setShaderTexture "glass", .setShaderMaterial "wall", .setTextureUVScale 1 1,
   .drawMesh .Cylinder,
   .setTransformations (50, 1, 50) 90 0 0 (0, 15, -20),
   .setShaderTexture "wall", .setShaderMaterial "wall", .setTextureUVScale 1 1,
   .drawMesh .Plane,
   .setTransformations (50, 1, 50) 0 0 0 (0, -55/2, 0),
   .setShaderTexture "floor", .setTextureUVScale 1 1, .setShaderMaterial "wall",
   .drawMesh .Plane]
  ++ renderDolphin ++ renderLaptop ++ renderBook ++ renderHeadPhones

/-- One draw of the script together with the texture tag and material
tag selected since the previous draw (none when no such call was made
for this draw) and whether a transform was written since the previous
draw. -/
structure DrawRecord where
  shape : Shape
  textureTag : Option String
  materialTag : Option String
  freshTransform : Bool
deriving Repr, DecidableEq

/-- Scan of a call sequence extracting one DrawRecord per draw call;
the per-draw bookkeeping resets after each draw. -/
def drawRecordsGo (textureTag materialTag : Option String)
    (freshTransform : Bool) : List SMCall → List DrawRecord
  | [] => []
  | c :: rest =>
    match c with
    | .setTransformations _ _ _ _ _ =>
      drawRecordsGo textureTag materialTag true rest
    | .setShaderTexture t => drawRecordsGo (some t) materialTag freshTransform rest
    | .setShaderMaterial t => drawRecordsGo textureTag (some t) freshTransform rest
    | .setTextureUVScale _ _ => drawRecordsGo textureTag materialTag freshTransform rest
    | .drawMesh s =>
      { shape := s, textureTag := textureTag, materialTag := materialTag
        freshTransform := freshTransform } :: drawRecordsGo none none false rest

/-- Draw records of a call sequence, starting with nothing selected. -/
def drawRecords (calls : List SMCall) : List DrawRecord :=
  drawRecordsGo none none false calls

/-- C6.  The per-frame script emits exactly the claimed ordered draw
sequence - 20 draws, each with the claimed texture tag and material tag
(no material for the laptop, book and headphones draws) - and every draw
has its own transform written since the previous draw. -/
theorem renderScene_draw_sequence :
    drawRecords renderScene =
      [{ shape := .Cylinder, textureTag := some "glass", materialTag := some "wall", freshTransform := true },
       { shape := .Plane, textureTag := some "wall", materialTag := some "wall", freshTransform := true },
       { shape := .Plane, textureTag := some "floor", materialTag := some "wall", freshTransform := true },
       { shape := .Cylinder, textureTag := some "fur", materialTag := some "fur", freshTransform := true },
       { shape := .TaperedCylinder, textureTag := some "fur", materialTag := some "fur", freshTransform := true },
       { shape := .Sphere, textureTag := some "fur", materialTag := some "fur", freshTransform := true },
       { shape := .Cone, textureTag := some "fur", materialTag := some "fur", freshTransform := true },
       { shape := .Sphere, textureTag := some "fur", materialTag := some "fur", freshTransform := true },
       { shape := .Prism, textureTag := some "fur", materialTag := some "fur", freshTransform := true },
       { shape := .Prism, textureTag := some "fur", materialTag := some "fur", freshTransform := true },
       { shape := .Prism, textureTag := some "fur", materialTag := some "fur", freshTransform := true },
       { shape := .Sphere, textureTag := some "black", materialTag := some "fur", freshTransform := true },
       { shape := .Sphere, textureTag := some "black", materialTag := some "fur", freshTransform := true },
       { shape := .Box, textureTag := some "keyboard", materialTag := none, freshTransform := true },
       { shape := .Box, textureTag := some "screen", materialTag := none, freshTransform := true },
       { shape := .Box, textureTag := some "book", materialTag := none, freshTransform := true },
       { shape := .Box, textureTag := some "pages", materialTag := none, freshTransform := true },
       { shape := .Torus, textureTag := some "black", materialTag := none, freshTransform := true },
       { shape := .TaperedCylinder, textureTag := some "headphones", materialTag := none, freshTransform := true },
       { shape := .TaperedCylinder, textureTag := some "headphones", materialTag := none, freshTransform := true }] ∧
    (drawRecords renderScene).all (fun r => r.freshTransform) = true := by
  decide

/-- The SceneManager state a frame acts on: the shader pointer, the two
registries the object owns, and (as model observables) the log of
uniform writes and of issued draw calls.  scratchMaterial stands for the
indeterminate content of SetShaderMaterial's uninitialized local. -/
structure SMState where
  pShaderNull : Bool
  m_textureIDs : List TextureEntry
  m_loadedTextures : Nat
  m_objectMaterials : List OBJECT_MATERIAL
  uniformLog : List UniformWrite
  drawLog : List Shape
  scratchMaterial : OBJECT_MATERIAL
deriving Repr, DecidableEq, Inhabited

/-- Interpret one call of the render script over the SceneManager
state: the four uniform-binder members append their writes (or crash on
a null dereference), a draw call is recorded; no call touches the
registries. -/
def applyCall (s : SMState) (c : SMCall) : Except Unit SMState :=
  match c with
  | .setTransformations scaleXYZ rx ry rz positionXYZ =>
    match setTransformations s.pShaderNull scaleXYZ rx ry rz positionXYZ with
    | .error e => .error e
    | .ok ws => .ok { s with uniformLog := s.uniformLog ++ ws }
  | .setShaderTexture t =>
    match setShaderTexture s.pShaderNull s.m_textureIDs t with
    | .error e => .error e
    | .ok ws => .ok { s with uniformLog := s.uniformLog ++ ws }
  | .setShaderMaterial t =>
    match setShaderMaterial s.pShaderNull s.m_objectMaterials t s.scratchMaterial with
    | .error e => .error e
    | .ok ws => .ok { s with uniformLog := s.uniformLog ++ ws }
  | .setTextureUVScale u v =>
    match setTextureUVScale s.pShaderNull u v with
    | .error e => .error e
    | .ok ws => .ok { s with uniformLog := s.uniformLog ++ ws }
  | .drawMesh shape => .ok { s with drawLog := s.drawLog ++ [shape] }

/-- Run a call sequence left to right, stopping at a crash. -/
def runCalls (s : SMState) : List SMCall → Except Unit SMState
  | [] => .ok s
  | c :: rest =>
    match applyCall s c with
    | .error e => .error e
    | .ok s2 => runCalls s2 rest

/-- No single script call mutates the texture registry, the
loaded-texture counter or the material registry. -/
theorem applyCall_preserves_registries (s : SMState) (c : SMCall) :
    match applyCall s c with
    | .ok s2 => s2.m_textureIDs = s.m_textureIDs ∧
        s2.m_loadedTextures = s.m_loadedTextures ∧
        s2.m_objectMaterials = s.m_objectMaterials
    | .error _ => True := by
  cases c with
  | setTransformations a b c d e =>
    cases hw : setTransformations s.pShaderNull a b c d e <;> simp [applyCall, hw]
  | setShaderTexture t =>
    cases hw : setShaderTexture s.pShaderNull s.m_textureIDs t <;> simp [applyCall, hw]
  | setShaderMaterial t =>
    cases hw : setShaderMaterial s.pShaderNull s.m_objectMaterials t s.scratchMaterial <;>
      simp [applyCall, hw]
  | setTextureUVScale u v =>
    cases hw : setTextureUVScale s.pShaderNull u v <;> simp [applyCall, hw]
  | drawMesh shape => simp [applyCall]

/-- Registry preservation extends over a whole call sequence. -/
theorem runCalls_preserves_registries (calls : List SMCall) :
    ∀ s : SMState,
    match runCalls s calls with
    | .ok s2 => s2.m_textureIDs = s.m_textureIDs ∧
        s2.m_loadedTextures = s.m_loadedTextures ∧
        s2.m_objectMaterials = s.m_objectMaterials
    | .error _ => True := by
  induction calls with
  | nil => intro s; simp [runCalls]
  | cons c rest ih =>
    intro s
    have hc := applyCall_preserves_registries s c
    cases ha : applyCall s c with
    | error e => simp [runCalls, ha]
    | ok s2 =>
      rw [ha] at hc
      have hr := ih s2
      cases hb : runCalls s2 rest with
      | error e => simp [runCalls, ha, hb]
      | ok s3 =>
        rw [hb] at hr
        simp only [runCalls, ha, hb]
        exact ⟨hr.1.trans hc.1, hr.2.1.trans hc.2.1, hr.2.2.trans hc.2.2⟩

/-- A concrete frame state: shader bound, fresh registries, materials as
DefineObjectMaterials leaves them. -/
def demoFrameState : SMState :=
  { pShaderNull := false
    m_textureIDs := [{ tag := "fur", ID := 1 }, { tag := "pages", ID := 2 }]
    m_loadedTextures := 2
    m_objectMaterials := defineObjectMaterials []
    uniformLog := []
    drawLog := []
    scratchMaterial := default }

/-- True when a call sequence runs to completion from the given state
(no null dereference along the way). -/
def runOk (s : SMState) (calls : List SMCall) : Bool :=
  match runCalls s calls with
  | .ok _ => true
  | .error _ => false

/-- C10.  For every starting state, running RenderScene (the dolphin,
laptop, book and headphones composers included) leaves the texture
registry, the loaded-texture counter and the material registry exactly
as they were - the frame only writes shader uniforms and issues draw
calls; on demoFrameState (shader bound) the frame indeed completes. -/
theorem renderScene_preserves_registries (s : SMState) :
    (match runCalls s renderScene with
     | .ok s2 => s2.m_textureIDs = s.m_textureIDs ∧
         s2.m_loadedTextures = s.m_loadedTextures ∧
         s2.m_objectMaterials = s.m_objectMaterials
     | .error _ => True) ∧
    runOk demoFrameState renderScene = true := by
  exact ⟨runCalls_preserves_registries renderScene s, by decide⟩

/-- glm::radians: degrees times pi over 180. -/
noncomputable def radians (degrees : ℝ) : ℝ := degrees * (Real.pi / 180)

/-- glm::rotate(angle, axis) from gtx/transform, for the already-unit
axes the source passes (glm normalizes the axis; the three call sites
pass the unit basis vectors, which normalization fixes).  Entries follow
glm's Rodrigues construction, transposed from glm's column-major
storage into row-column indexing; the fourth row and column are those
of the identity.  Real-number arithmetic models the float arithmetic of
the source exactly rather than with rounding. -/
noncomputable def glmRotate (angle ax ay az : ℝ) : Matrix (Fin 4) (Fin 4) ℝ :=
  let c := Real.cos angle
  let s := Real.sin angle
  Matrix.of
    ![![c + (1 - c) * ax * ax, (1 - c) * ay * ax - s * az, (1 - c) * az * ax + s * ay, 0],
      ![(1 - c) * ax * ay + s * az, c + (1 - c) * ay * ay, (1 - c) * az * ay - s * ax, 0],
      ![(1 - c) * ax * az - s * ay, (1 - c) * ay * az + s * ax, c + (1 - c) * az * az, 0],
      ![0, 0, 0, 1]]

/-- glm::scale: non-uniform scale on the diagonal. -/
noncomputable def glmScale (scaleXYZ : ℝ × ℝ × ℝ) : Matrix (Fin 4) (Fin 4) ℝ :=
  Matrix.of
    ![![scaleXYZ.1, 0, 0, 0],
      ![0, scaleXYZ.2.1, 0, 0],
      ![0, 0, scaleXYZ.2.2, 0],
      ![0, 0, 0, 1]]

/-- glm::translate: identity with the translation in the last column. -/
noncomputable def glmTranslate (positionXYZ : ℝ × ℝ × ℝ) : Matrix (Fin 4) (Fin 4) ℝ :=
  Matrix.of
    ![![1, 0, 0, positionXYZ.1],
      ![0, 1, 0, positionXYZ.2.1],
      ![0, 0, 1, positionXYZ.2.2],
      ![0, 0, 0, 1]]

/-- The matrix SceneManager::SetTransformations pushes to the model
uniform: scale, the three axis rotations built from the
degree-to-radian conversions, translation, multiplied as
translation * rotationX * rotationY * rotationZ * scale. -/
noncomputable def setTransformationsMatrix (scaleXYZ : ℝ × ℝ × ℝ)
    (XrotationDegrees YrotationDegrees ZrotationDegrees : ℝ)
    (positionXYZ : ℝ × ℝ × ℝ) : Matrix (Fin 4) (Fin 4) ℝ :=
  glmTranslate positionXYZ *
    glmRotate (radians XrotationDegrees) 1 0 0 *
    glmRotate (radians YrotationDegrees) 0 1 0 *
    glmRotate (radians ZrotationDegrees) 0 0 1 *
    glmScale scaleXYZ

/-- The spec's Rx: rotation about the x axis, right-handed,
counter-clockwise positive. -/
noncomputable def rotationXSpec (a : ℝ) : Matrix (Fin 4) (Fin 4) ℝ :=
  Matrix.of
    ![![1, 0, 0, 0],
      ![0, Real.cos a, -Real.sin a, 0],
      ![0, Real.sin a, Real.cos a, 0],
      ![0, 0, 0, 1]]

/-- The spec's Ry: rotation about the y axis. -/
noncomputable def rotationYSpec (a : ℝ) : Matrix (Fin 4) (Fin 4) ℝ :=
  Matrix.of
    ![![Real.cos a, 0, Real.sin a, 0],
      ![0, 1, 0, 0],
      ![-Real.sin a, 0, Real.cos a, 0],
      ![0, 0, 0, 1]]

/-- The spec's Rz: rotation about the z axis. -/
noncomputable def rotationZSpec (a : ℝ) : Matrix (Fin 4) (Fin 4) ℝ :=
  Matrix.of
    ![![Real.cos a, -Real.sin a, 0, 0],
      ![Real.sin a, Real.cos a, 0, 0],
      ![0, 0, 1, 0],
      ![0, 0, 0, 1]]

/-- glm's Rodrigues matrix at the unit x axis is the spec's Rx. -/
theorem glmRotate_x_axis (a : ℝ) : glmRotate a 1 0 0 = rotationXSpec a := by
  funext i j
  fin_cases i <;> fin_cases j <;> simp [glmRotate, rotationXSpec]

/-- glm's Rodrigues matrix at the unit y axis is the spec's Ry. -/
theorem glmRotate_y_axis (a : ℝ) : glmRotate a 0 1 0 = rotationYSpec a := by
  funext i j
  fin_cases i <;> fin_cases j <;> simp [glmRotate, rotationYSpec]

/-- glm's Rodrigues matrix at the unit z axis is the spec's Rz. -/
theorem glmRotate_z_axis (a : ℝ) : glmRotate a 0 0 1 = rotationZSpec a := by
  funext i j
  fin_cases i <;> fin_cases j <;> simp [glmRotate, rotationZSpec]

/-- Each spec rotation at angle zero is the identity. -/
theorem rotationSpec_zero :
    rotationXSpec 0 = 1 ∧ rotationYSpec 0 = 1 ∧ rotationZSpec 0 = 1 := by
  refine ⟨?_, ?_, ?_⟩ <;>
    · funext i j
      fin_cases i <;> fin_cases j <;>
        simp [rotationXSpec, rotationYSpec, rotationZSpec, Matrix.one_apply,
          Matrix.vecHead, Matrix.vecTail]

/-- C4.  SetTransformations pushes exactly
T(t) * Rx(rx) * Ry(ry) * Rz(rz) * S(s), each rotation built from its
angle converted from degrees to radians; and with zero rotations the
result has diag(sx, sy, sz) as its upper-left block and t as its
translation column. -/
theorem setTransformations_matrix_spec (scaleXYZ : ℝ × ℝ × ℝ)
    (rx ry rz : ℝ) (positionXYZ : ℝ × ℝ × ℝ) :
    setTransformationsMatrix scaleXYZ rx ry rz positionXYZ =
      glmTranslate positionXYZ * rotationXSpec (radians rx) *
        rotationYSpec (radians ry) * rotationZSpec (radians rz) *
        glmScale scaleXYZ ∧
    setTransformationsMatrix scaleXYZ 0 0 0 positionXYZ =
      Matrix.of
        ![![scaleXYZ.1, 0, 0, positionXYZ.1],
          ![0, scaleXYZ.2.1, 0, positionXYZ.2.1],
          ![0, 0, scaleXYZ.2.2, positionXYZ.2.2],
          ![0, 0, 0, 1]] := by
  constructor
  · rw [setTransformationsMatrix, glmRotate_x_axis, glmRotate_y_axis, glmRotate_z_axis]
  · rw [setTransformationsMatrix, glmRotate_x_axis, glmRotate_y_axis, glmRotate_z_axis]
    rw [show radians 0 = 0 by rw [radians]; ring]
    rw [rotationSpec_zero.1, rotationSpec_zero.2.1, rotationSpec_zero.2.2,
      Matrix.mul_one, Matrix.mul_one, Matrix.mul_one]
    funext i j
    fin_cases i <;> fin_cases j <;>
      simp [glmTranslate, glmScale, Matrix.mul_apply, Fin.sum_univ_four,
        Matrix.vecHead, Matrix.vecTail]

end SceneMgr
